import Mathlib

/-!
Verification of the loss-composition layer `GuidedAAC` from
`btgym/research/gps/aac.py`.

The class is a thin subclass of a base actor-critic trainer (`BaseAAC`,
outside this excerpt).  It overrides `_make_loss` to combine the base
trainer's loss with a pluggable expert-imitation loss:
`loss = aac_lambda * aac_loss + guided_lambda * guided_loss`, and wraps
its constructor body in a catch-all that logs and re-raises a generic
`RuntimeError`.

Modelling choices:
- loss values and the two weighting coefficients are exact rationals `ℚ`
  (the code builds a symbolic computation graph; the claims are about the
  exact algebraic combination it encodes);
- tensor handles are an abstract type `T`; summaries are `List String`;
- Python exceptions are an abstract type `ε`; fallible collaborators
  return `Except ε`;
- observable effects (log calls, expert-loss invocations, super-constructor
  invocations) are returned as explicit trace lists.
-/

namespace BtGym

/-- A leveled log event emitted through the trainer's `self.log` facility.
`notice` carries the two coefficients logged by
`self.log.notice('aac_lambda: {:1.6f}, guided_lambda: {:1.6f}'.format(...))`;
`exceptionLog` models `self.log.exception(msg)`, which logs `msg` together
with the traceback of the exception currently being handled. -/
inductive LogEvent (ε : Type) where
  | notice (aac_lambda guided_lambda : ℚ)
  | exceptionLog (msg : String) (exc : ε)
deriving DecidableEq

/-- The keyword arguments of one invocation of the pluggable expert-loss
callable: `expert_loss(pi_actions=..., expert_actions=..., name=..., verbose=...)`. -/
structure ExpertCall (T : Type) where
  pi_actions : T
  expert_actions : T
  name : String
  verbose : Bool
deriving DecidableEq

/-- The two tensors `_make_loss` reads from `self.local_network`:
`on_logits` (the policy's action-distribution output) and
`expert_actions` (the expert's suggested action distribution). -/
structure LocalNetwork (T : Type) where
  on_logits : T
  expert_actions : T
deriving DecidableEq

/-- The three attributes `GuidedAAC.__init__` assigns onto `self` before
calling the base constructor: the expert-loss callable and the two
weighting coefficients. -/
structure PreSelf (T ε : Type) where
  expert_loss : ExpertCall T → Except ε (ℚ × List String)
  aac_lambda : ℚ
  guided_lambda : ℚ

/-- The state `_make_loss` reads: the attributes set by `__init__`
(via `PreSelf`), the collaborator network, and the base trainer's loss
builder.  `_make_base_loss` is a `BaseAAC` method outside this excerpt;
per the spec it produces a `(loss, summaries)` pair and may raise. -/
structure GuidedAAC (T ε : Type) extends PreSelf T ε where
  local_network : LocalNetwork T
  _make_base_loss : Except ε (ℚ × List String)

/-- What one call of `_make_loss` produces: the returned
`(loss, summaries)` pair (or the propagated exception), together with the
trace of log events it emitted itself and of its invocations of the
expert-loss callable. -/
structure MakeLossResult (T ε : Type) where
  outcome : Except ε (ℚ × List String)
  log_events : List (LogEvent ε)
  expert_calls : List (ExpertCall T)

/-- Embedding of `GuidedAAC._make_loss`:

    aac_loss, summaries = self._make_base_loss()
    guided_loss, guided_summary = self.expert_loss(
        pi_actions=self.local_network.on_logits,
        expert_actions=self.local_network.expert_actions,
        name='on_policy',
        verbose=True)
    loss = self.aac_lambda * aac_loss + self.guided_lambda * guided_loss
    summaries += guided_summary
    self.log.notice(...)
    return loss, summaries

No exception is caught; the second component of the result is the
object state after the call (the method assigns no attribute). -/
def GuidedAAC._make_loss {T ε : Type} (self : GuidedAAC T ε) :
    MakeLossResult T ε × GuidedAAC T ε :=
  match self._make_base_loss with
  | .error e => (⟨.error e, [], []⟩, self)
  | .ok (aac_loss, summaries) =>
    let call : ExpertCall T :=
      ⟨self.local_network.on_logits, self.local_network.expert_actions, "on_policy", true⟩
    match self.expert_loss call with
    | .error e => (⟨.error e, [], [call]⟩, self)
    | .ok (guided_loss, guided_summary) =>
      let loss := self.aac_lambda * aac_loss + self.guided_lambda * guided_loss
      (⟨.ok (loss, summaries ++ guided_summary),
        [LogEvent.notice self.aac_lambda self.guided_lambda], [call]⟩, self)

/-- Modelled from the spec: `guided_aac_loss_def_0_3`, the default
expert-loss callable, imported from the sibling module
`btgym/research/gps/loss.py` which is not part of this excerpt.  Only its
identity as the default matters here; the spec gives it the pluggable
signature `(policy_actions, expert_actions, name, verbose) -> (loss, summaries)`. -/
def guided_aac_loss_def_0_3 {T ε : Type} : ExpertCall T → Except ε (ℚ × List String) :=
  fun _ => .ok (0, [])

/-- Modelled from the spec: runner-selection references.
`VerboseEnvRunnerFn` (from `btgym/research/verbose_env_runner.py`, not part
of this excerpt) is the constructor's default; `other` stands for any other
reference a caller may pass. -/
inductive RunnerRef where
  | VerboseEnvRunnerFn
  | other (id : Nat)
deriving DecidableEq

/-- The arguments `GuidedAAC.__init__` forwards to the base constructor:
`super().__init__(runner_fn_ref=..., _aux_render_modes=..., name=..., **kwargs)`. -/
structure SuperArgs (K : Type) where
  runner_fn_ref : RunnerRef
  _aux_render_modes : List String
  name : String
  kwargs : K

/-- The fixed message of the `RuntimeError` raised by the constructor's
catch-all handler. -/
def guidedAACInitMsg : String :=
  "GuidedAAC.__init()__ exception occurred" ++
  "\n\nPress `Ctrl-C` or jupyter:[Kernel]->[Interrupt] for clean exit.\n"

/-- The only exception type the constructor itself raises: the generic
`RuntimeError(msg)` produced by its catch-all handler. -/
inductive InitError where
  | runtimeError (msg : String)
deriving DecidableEq

/-- What one call of `GuidedAAC.__init__` produces: the constructed object
(the attributes kept on `self` plus the base trainer's state `B`) or the
wrapping `InitError`, the log events emitted, and the trace of base-constructor
invocations (each recording the partially-built `self` visible to the base
constructor and the arguments forwarded to it). -/
structure InitResult (T ε K B : Type) where
  outcome : Except InitError (PreSelf T ε × B)
  log_events : List (LogEvent ε)
  super_calls : List (PreSelf T ε × SuperArgs K)

/-- Embedding of `GuidedAAC.__init__`.  `superInit` abstracts
`BaseAAC.__init__` (outside this excerpt): it receives the partially
constructed `self` — whose three attributes are already assigned, since the
base setup phase calls back into `_make_loss` — and the forwarded
arguments, and may raise any `ε`.  Default argument values are those of the
Python signature.  The body:

    try:
        self.expert_loss = expert_loss
        self.aac_lambda = aac_lambda
        self.guided_lambda = guided_lambda
        super().__init__(runner_fn_ref=..., _aux_render_modes=..., name=..., **kwargs)
    except:
        msg = 'GuidedAAC.__init()__ exception occurred' ...
        self.log.exception(msg)
        raise RuntimeError(msg)

The logging facility is modelled (from the spec) as total, so every caught
exception is logged and then wrapped. -/
def GuidedAAC.init {T ε K B : Type}
    (superInit : PreSelf T ε → SuperArgs K → Except ε B)
    (kwargs : K)
    (expert_loss : ExpertCall T → Except ε (ℚ × List String) := guided_aac_loss_def_0_3)
    (aac_lambda : ℚ := 1)
    (guided_lambda : ℚ := 1)
    (runner_fn_ref : RunnerRef := RunnerRef.VerboseEnvRunnerFn)
    ( _aux_render_modes : List String := ["action_prob", "value_fn", "lstm_1_h", "lstm_2_h"])
    (name : String := "GuidedA3C") :
    InitResult T ε K B :=
  let pre : PreSelf T ε := ⟨expert_loss, aac_lambda, guided_lambda⟩
  let args : SuperArgs K := ⟨runner_fn_ref, _aux_render_modes, name, kwargs⟩
  match superInit pre args with
  | .ok b => ⟨.ok (pre, b), [], [(pre, args)]⟩
  | .error e =>
      ⟨.error (InitError.runtimeError guidedAACInitMsg),
       [LogEvent.exceptionLog guidedAACInitMsg e], [(pre, args)]⟩

/-! Concrete fixtures used by the witness theorems. -/

/-- A concrete expert-loss callable returning loss `3` with one summary. -/
def expertW : ExpertCall Nat → Except String (ℚ × List String) :=
  fun _ => .ok (3, ["expert_summary"])

/-- A concrete trainer state: weights `2` and `5`, base loss `7`. -/
def selfW : GuidedAAC Nat String :=
  { expert_loss := expertW
    aac_lambda := 2
    guided_lambda := 5
    local_network := ⟨10, 20⟩
    _make_base_loss := .ok (7, ["base_summary_0", "base_summary_1"]) }

/-- A concrete trainer state with `aac_lambda = 0`. -/
def selfZeroA : GuidedAAC Nat String :=
  { selfW with aac_lambda := 0 }

/-- A concrete trainer state with `guided_lambda = 0`. -/
def selfZeroG : GuidedAAC Nat String :=
  { selfW with guided_lambda := 0 }

/-- A concrete trainer state whose base-loss builder raises. -/
def selfBaseErr : GuidedAAC Nat String :=
  { selfW with _make_base_loss := .error "base_loss_error" }

/-- A concrete trainer state whose expert-loss callable raises. -/
def selfExpertErr : GuidedAAC Nat String :=
  { selfW with expert_loss := fun _ => .error "expert_shape_error" }

/-- A concrete trainer state with both weights equal to `1` (the defaults). -/
def selfOnes : GuidedAAC Nat String :=
  { selfW with aac_lambda := 1, guided_lambda := 1 }

/-- The expert-loss invocation `_make_loss` performs on a given state. -/
def theExpertCall {T ε : Type} (self : GuidedAAC T ε) : ExpertCall T :=
  ⟨self.local_network.on_logits, self.local_network.expert_actions, "on_policy", true⟩

/-- Claim C1: whenever the base-loss builder returns `(b, s)` and the
expert-loss callable returns `(g, t)`, `_make_loss` returns the composed
loss `aac_lambda * b + guided_lambda * g` exactly. -/
theorem make_loss_is_weighted_sum {T ε : Type} (self : GuidedAAC T ε)
    (b g : ℚ) (s t : List String)
    (hb : self._make_base_loss = .ok (b, s))
    (hg : self.expert_loss (theExpertCall self) = .ok (g, t)) :
    (self._make_loss).1.outcome =
      .ok (self.aac_lambda * b + self.guided_lambda * g, s ++ t) := by
  simp [GuidedAAC._make_loss, theExpertCall, hb, hg] at *

/-- Witness for C1 at the concrete state `selfW`: `2 * 7 + 5 * 3 = 29`. -/
theorem make_loss_is_weighted_sum_witness :
    (selfW._make_loss).1.outcome =
      .ok ((2 : ℚ) * 7 + 5 * 3,
        ["base_summary_0", "base_summary_1"] ++ ["expert_summary"]) :=
  make_loss_is_weighted_sum selfW 7 3
    ["base_summary_0", "base_summary_1"] ["expert_summary"] rfl rfl

/-- Claim C2: the summary list `_make_loss` returns is the base summaries
followed by the expert summaries (list concatenation), so order and the
count of elements of both lists are preserved. -/
theorem make_loss_summary_concat {T ε : Type} (self : GuidedAAC T ε)
    (b g : ℚ) (s t : List String)
    (hb : self._make_base_loss = .ok (b, s))
    (hg : self.expert_loss (theExpertCall self) = .ok (g, t)) :
    (self._make_loss).1.outcome =
      .ok (self.aac_lambda * b + self.guided_lambda * g, s ++ t) ∧
    (s ++ t).length = s.length + t.length := by
  refine ⟨?_, List.length_append s t⟩
  simp [GuidedAAC._make_loss, theExpertCall, hb, hg] at *

/-- Witness for C2 at the concrete state `selfW`. -/
theorem make_loss_summary_concat_witness :
    (selfW._make_loss).1.outcome =
      .ok ((2 : ℚ) * 7 + 5 * 3,
        ["base_summary_0", "base_summary_1"] ++ ["expert_summary"]) ∧
    ((["base_summary_0", "base_summary_1"] ++ ["expert_summary"] : List String)).length =
      (["base_summary_0", "base_summary_1"] : List String).length +
        (["expert_summary"] : List String).length :=
  make_loss_summary_concat selfW 7 3
    ["base_summary_0", "base_summary_1"] ["expert_summary"] rfl rfl

/-- Claim C3: with `aac_lambda = 0` the composed loss is
`guided_lambda * g` regardless of `b`; with `guided_lambda = 0` it is
`aac_lambda * b` regardless of `g`. -/
theorem make_loss_zero_lambda {T ε : Type} (self : GuidedAAC T ε)
    (b g : ℚ) (s t : List String)
    (hb : self._make_base_loss = .ok (b, s))
    (hg : self.expert_loss (theExpertCall self) = .ok (g, t)) :
    (self.aac_lambda = 0 →
      (self._make_loss).1.outcome = .ok (self.guided_lambda * g, s ++ t)) ∧
    (self.guided_lambda = 0 →
      (self._make_loss).1.outcome = .ok (self.aac_lambda * b, s ++ t)) := by
  constructor <;> intro h0 <;>
    simp [GuidedAAC._make_loss, theExpertCall, hb, hg, h0] at *

/-- Witness for C3: one state with `aac_lambda = 0`, one with
`guided_lambda = 0`. -/
theorem make_loss_zero_lambda_witness :
    (selfZeroA._make_loss).1.outcome =
      .ok ((5 : ℚ) * 3, ["base_summary_0", "base_summary_1"] ++ ["expert_summary"]) ∧
    (selfZeroG._make_loss).1.outcome =
      .ok ((2 : ℚ) * 7, ["base_summary_0", "base_summary_1"] ++ ["expert_summary"]) :=
  ⟨(make_loss_zero_lambda selfZeroA 7 3
      ["base_summary_0", "base_summary_1"] ["expert_summary"] rfl rfl).1 rfl,
   (make_loss_zero_lambda selfZeroG 7 3
      ["base_summary_0", "base_summary_1"] ["expert_summary"] rfl rfl).2 rfl⟩

/-- Claim C4: whenever the base loss is available, `_make_loss` invokes the
expert-loss callable exactly once, with `pi_actions` the network's
`on_logits`, `expert_actions` the network's `expert_actions`, name
`'on_policy'` and `verbose = True`; and whatever `(g, t)` that call
returns is used as the expert contribution of the composed result. -/
theorem make_loss_expert_invocation {T ε : Type} (self : GuidedAAC T ε)
    (b : ℚ) (s : List String)
    (hb : self._make_base_loss = .ok (b, s)) :
    (self._make_loss).1.expert_calls =
      [⟨self.local_network.on_logits, self.local_network.expert_actions,
        "on_policy", true⟩] ∧
    (∀ g t, self.expert_loss (theExpertCall self) = .ok (g, t) →
      (self._make_loss).1.outcome =
        .ok (self.aac_lambda * b + self.guided_lambda * g, s ++ t)) := by
  constructor
  · rcases hg : self.expert_loss (theExpertCall self) with e | p <;>
      simp [GuidedAAC._make_loss, theExpertCall, hb] at * <;>
      simp [hg]
  · intro g t hg
    simp [GuidedAAC._make_loss, theExpertCall, hb, hg] at *

/-- Witness for C4 at the concrete state `selfW`. -/
theorem make_loss_expert_invocation_witness :
    (selfW._make_loss).1.expert_calls = [⟨10, 20, "on_policy", true⟩] ∧
    (selfW._make_loss).1.outcome =
      .ok ((2 : ℚ) * 7 + 5 * 3,
        ["base_summary_0", "base_summary_1"] ++ ["expert_summary"]) :=
  ⟨(make_loss_expert_invocation selfW 7
      ["base_summary_0", "base_summary_1"] rfl).1,
   (make_loss_expert_invocation selfW 7
      ["base_summary_0", "base_summary_1"] rfl).2 3 ["expert_summary"] rfl⟩

/-- Claim C6: `_make_loss` catches nothing: an exception raised by the
base-loss builder, or by the expert-loss callable, propagates unchanged
(same value `e`) to the caller. -/
theorem make_loss_propagates_exceptions {T ε : Type} (self : GuidedAAC T ε)
    (e : ε) :
    (self._make_base_loss = .error e →
      (self._make_loss).1.outcome = .error e) ∧
    (∀ b s, self._make_base_loss = .ok (b, s) →
      self.expert_loss (theExpertCall self) = .error e →
      (self._make_loss).1.outcome = .error e) := by
  constructor
  · intro h
    simp [GuidedAAC._make_loss, h] at *
  · intro b s hb hg
    simp [GuidedAAC._make_loss, theExpertCall, hb, hg] at *

/-- Witness for C6: one state whose base builder raises, one whose expert
callable raises; both exceptions come back unchanged. -/
theorem make_loss_propagates_exceptions_witness :
    (selfBaseErr._make_loss).1.outcome = .error "base_loss_error" ∧
    (selfExpertErr._make_loss).1.outcome = .error "expert_shape_error" :=
  ⟨(make_loss_propagates_exceptions selfBaseErr "base_loss_error").1 rfl,
   (make_loss_propagates_exceptions selfExpertErr "expert_shape_error").2
     7 ["base_summary_0", "base_summary_1"] rfl rfl⟩

/-- Claim C7: a successful call of `_make_loss` emits exactly one log
event of its own: the two weighting coefficients at notice level. -/
theorem make_loss_notice_logging {T ε : Type} (self : GuidedAAC T ε)
    (b g : ℚ) (s t : List String)
    (hb : self._make_base_loss = .ok (b, s))
    (hg : self.expert_loss (theExpertCall self) = .ok (g, t)) :
    (self._make_loss).1.log_events =
      [LogEvent.notice self.aac_lambda self.guided_lambda] := by
  simp [GuidedAAC._make_loss, theExpertCall, hb, hg] at *

/-- Witness for C7 at the concrete state `selfW`. -/
theorem make_loss_notice_logging_witness :
    (selfW._make_loss).1.log_events = [LogEvent.notice 2 5] :=
  make_loss_notice_logging selfW 7 3
    ["base_summary_0", "base_summary_1"] ["expert_summary"] rfl rfl

/-- A concrete base constructor that raises the exception `"tf_build_error"`. -/
def superRaise : PreSelf Nat String → SuperArgs Unit → Except String Unit :=
  fun _ _ => .error "tf_build_error"

/-- A concrete base constructor that succeeds. -/
def superOk : PreSelf Nat String → SuperArgs Unit → Except String Unit :=
  fun _ _ => .ok ()

/-- Claim C5: whatever exception `e` the base setup raises during
construction, `__init__` catches it, logs it (with the fixed message and
the caught exception's traceback) and raises
`RuntimeError(guidedAACInitMsg)`; the outcome's error type `InitError`
has no constructor carrying the original exception, so `e` itself is
never propagated to the caller. -/
theorem init_wraps_exceptions {T ε K B : Type}
    (superInit : PreSelf T ε → SuperArgs K → Except ε B) (kwargs : K)
    (el : ExpertCall T → Except ε (ℚ × List String)) (a l : ℚ)
    (r : RunnerRef) (m : List String) (n : String) (e : ε)
    (h : superInit ⟨el, a, l⟩ ⟨r, m, n, kwargs⟩ = .error e) :
    (GuidedAAC.init superInit kwargs el a l r m n).outcome =
      .error (InitError.runtimeError guidedAACInitMsg) ∧
    (GuidedAAC.init superInit kwargs el a l r m n).log_events =
      [LogEvent.exceptionLog guidedAACInitMsg e] := by
  constructor <;> simp [GuidedAAC.init, h]

/-- Witness for C5: a base constructor raising `"tf_build_error"`. -/
theorem init_wraps_exceptions_witness :
    (GuidedAAC.init superRaise () expertW 2 5 RunnerRef.VerboseEnvRunnerFn
        ["action_prob"] "GuidedA3C").outcome =
      .error (InitError.runtimeError guidedAACInitMsg) ∧
    (GuidedAAC.init superRaise () expertW 2 5 RunnerRef.VerboseEnvRunnerFn
        ["action_prob"] "GuidedA3C").log_events =
      [LogEvent.exceptionLog guidedAACInitMsg "tf_build_error"] :=
  init_wraps_exceptions superRaise () expertW 2 5 RunnerRef.VerboseEnvRunnerFn
    ["action_prob"] "GuidedA3C" "tf_build_error" rfl

/-- Claim C8: the constructor invokes the base constructor exactly once,
forwarding the runner reference, the aux render modes, the name scope and
the remaining keyword arguments unchanged, while the `self` it passes
carries the expert-loss callable and the two weights it kept; on success
the constructed object keeps exactly those three attributes. -/
theorem init_forwards_arguments {T ε K B : Type}
    (superInit : PreSelf T ε → SuperArgs K → Except ε B) (kwargs : K)
    (el : ExpertCall T → Except ε (ℚ × List String)) (a l : ℚ)
    (r : RunnerRef) (m : List String) (n : String) :
    (GuidedAAC.init superInit kwargs el a l r m n).super_calls =
      [(⟨el, a, l⟩, ⟨r, m, n, kwargs⟩)] ∧
    (∀ bb, superInit ⟨el, a, l⟩ ⟨r, m, n, kwargs⟩ = .ok bb →
      (GuidedAAC.init superInit kwargs el a l r m n).outcome =
        .ok (⟨el, a, l⟩, bb)) := by
  constructor
  · rcases h : superInit ⟨el, a, l⟩ ⟨r, m, n, kwargs⟩ with e | bb <;>
      simp [GuidedAAC.init, h]
  · intro bb h
    simp [GuidedAAC.init, h]

/-- Witness for C8: a succeeding base constructor with non-default
arguments; everything reaches it unchanged. -/
theorem init_forwards_arguments_witness :
    (GuidedAAC.init superOk () expertW 2 5 (RunnerRef.other 9)
        ["render_mode_x"] "my_scope").super_calls =
      [(⟨expertW, 2, 5⟩, ⟨RunnerRef.other 9, ["render_mode_x"], "my_scope", ()⟩)] ∧
    (GuidedAAC.init superOk () expertW 2 5 (RunnerRef.other 9)
        ["render_mode_x"] "my_scope").outcome = .ok (⟨expertW, 2, 5⟩, ()) :=
  ⟨(init_forwards_arguments superOk () expertW 2 5 (RunnerRef.other 9)
      ["render_mode_x"] "my_scope").1,
   (init_forwards_arguments superOk () expertW 2 5 (RunnerRef.other 9)
      ["render_mode_x"] "my_scope").2 () rfl⟩

/-- Claim C9: omitting the optional constructor arguments is the same as
passing `guided_aac_loss_def_0_3`, `1`, `1`, `VerboseEnvRunnerFn`, the
four default render modes and the name `'GuidedA3C'`; and with both
weights at their default `1` the composed loss is the plain sum `b + g`. -/
theorem init_defaults {T ε K B : Type}
    (superInit : PreSelf T ε → SuperArgs K → Except ε B) (kwargs : K) :
    GuidedAAC.init superInit kwargs =
      GuidedAAC.init superInit kwargs guided_aac_loss_def_0_3 1 1
        RunnerRef.VerboseEnvRunnerFn
        ["action_prob", "value_fn", "lstm_1_h", "lstm_2_h"] "GuidedA3C" ∧
    (∀ (self : GuidedAAC T ε) (b g : ℚ) (s t : List String),
      self.aac_lambda = 1 → self.guided_lambda = 1 →
      self._make_base_loss = .ok (b, s) →
      self.expert_loss (theExpertCall self) = .ok (g, t) →
      (self._make_loss).1.outcome = .ok (b + g, s ++ t)) := by
  refine ⟨rfl, ?_⟩
  intro self b g s t ha hl hb hg
  simp [GuidedAAC._make_loss, theExpertCall, ha, hl, hb, hg] at *

/-- Witness for C9: with both weights `1` the composed loss at `selfOnes`
is the plain sum `7 + 3`. -/
theorem init_defaults_witness :
    (selfOnes._make_loss).1.outcome =
      .ok ((7 : ℚ) + 3,
        ["base_summary_0", "base_summary_1"] ++ ["expert_summary"]) :=
  (init_defaults superOk ()).2 selfOnes 7 3
    ["base_summary_0", "base_summary_1"] ["expert_summary"] rfl rfl rfl rfl

/-- Claim C10: on success the constructed object's `expert_loss`,
`aac_lambda` and `guided_lambda` equal the constructor arguments; the
(single) base-constructor invocation already receives a `self` carrying
exactly those attributes, so they are assigned before the base setup
runs; and `_make_loss` returns its state unchanged — it assigns no
attribute. -/
theorem init_attributes_and_frame {T ε K B : Type}
    (superInit : PreSelf T ε → SuperArgs K → Except ε B) (kwargs : K)
    (el : ExpertCall T → Except ε (ℚ × List String)) (a l : ℚ)
    (r : RunnerRef) (m : List String) (n : String)
    (p : PreSelf T ε) (bb : B)
    (h : (GuidedAAC.init superInit kwargs el a l r m n).outcome = .ok (p, bb)) :
    (p.expert_loss = el ∧ p.aac_lambda = a ∧ p.guided_lambda = l) ∧
    (GuidedAAC.init superInit kwargs el a l r m n).super_calls.map Prod.fst =
      [p] ∧
    (∀ (self : GuidedAAC T ε), (self._make_loss).2 = self) := by
  rcases hs : superInit ⟨el, a, l⟩ ⟨r, m, n, kwargs⟩ with e | b0
  · simp [GuidedAAC.init, hs] at h
  · simp [GuidedAAC.init, hs] at h
    refine ⟨?_, ?_, ?_⟩
    · rw [← h.1]
      exact ⟨rfl, rfl, rfl⟩
    · simp [GuidedAAC.init, hs, ← h.1]
    · intro self
      rcases hb : self._make_base_loss with e | p0
      · simp [GuidedAAC._make_loss, hb]
      · rcases hg : self.expert_loss (theExpertCall self) with e | q0 <;>
          simp [theExpertCall] at hg <;>
          simp [GuidedAAC._make_loss, hb, hg]

/-- Witness for C10: a successful construction, and the frame property of
`_make_loss` applied at the concrete state `selfW`. -/
theorem init_attributes_and_frame_witness :
    ((⟨expertW, 2, 5⟩ : PreSelf Nat String).aac_lambda = 2) ∧
    (selfW._make_loss).2 = selfW :=
  ⟨(init_attributes_and_frame superOk () expertW 2 5
      RunnerRef.VerboseEnvRunnerFn ["action_prob"] "GuidedA3C"
      ⟨expertW, 2, 5⟩ () rfl).1.2.1,
   (init_attributes_and_frame superOk () expertW 2 5
      RunnerRef.VerboseEnvRunnerFn ["action_prob"] "GuidedA3C"
      ⟨expertW, 2, 5⟩ () rfl).2.2 selfW⟩

end BtGym
